import Mathlib

/-!
Verification development for the Tickety-Bot repository (a Discord support-ticket
bot).  The repository contains two divergent implementations of the ticket flow:

* the database-backed variant (`index.js` + `commands.js` + `db_config.js`,
  MongoDB persistence, numbered `ticket-{n}` channel names) — modelled in
  namespace `Db`;
* the file-backed select-menu variant (`config.json` persistence,
  `{topic}-{username}` channel names, in-memory cooldown map) — modelled in
  namespace `Fs`.

Stateful handlers are embedded as pure functions over explicit state (the list
of guild channels, the cooldown map, the control-panel embed fields); Discord
API side effects of the closure flow are recorded as an explicit effect list.
-/

/-! ## String utilities mirroring the JavaScript string operations used -/

/-- Decides whether a character is an ASCII digit, as matched by the regex
class `\d`. -/
def isDigitChar (c : Char) : Bool := '0' ≤ c && c ≤ '9'

/-- Decides whether a character is a lowercase ASCII letter, digit or
underscore, the class kept by the topic-key sanitizers (`[a-z0-9_]`). -/
def isKeyChar (c : Char) : Bool :=
  ('a' ≤ c && c ≤ 'z') || ('0' ≤ c && c ≤ '9') || c = '_'

/-- Decides whether a character is a lowercase ASCII letter or digit, the
class kept by the rename sanitizer (`[a-z0-9]`). -/
def isNameChar (c : Char) : Bool :=
  ('a' ≤ c && c ≤ 'z') || ('0' ≤ c && c ≤ '9')

/-- Numeric value of a list of ASCII digits, as computed by
`parseInt(s, 10)` on a digit-only string. -/
def digitsToNat (l : List Char) : Nat :=
  l.foldl (fun n c => n * 10 + (c.toNat - '0'.toNat)) 0

/-- JavaScript `haystack.includes(needle)` on character lists. -/
def hasSubstr (hay needle : List Char) : Bool :=
  needle.isPrefixOf hay ||
    match hay with
    | [] => false
    | _ :: rest => hasSubstr rest needle

/-- JavaScript `s.includes(sub)`. -/
def strContains (s sub : String) : Bool := hasSubstr s.toList sub.toList

/-- JavaScript `s.startsWith(p)`. -/
def strStartsWith (s p : String) : Bool := p.toList.isPrefixOf s.toList

/-- JavaScript `s.substring(0, n)`. -/
def strTake (s : String) (n : Nat) : String := String.mk (s.toList.take n)

/-- Leftmost match of the regex `marker(\d+)`: scans for the first position
where `marker` is immediately followed by a digit and returns the maximal
digit run there (the first capture group). -/
def findMarkerDigits (marker : List Char) : List Char → Option (List Char)
  | [] => none
  | c :: rest =>
    if marker.isPrefixOf (c :: rest) then
      match (c :: rest).drop marker.length with
      | d :: after =>
        if isDigitChar d then some ((d :: after).takeWhile isDigitChar)
        else findMarkerDigits marker rest
      | [] => findMarkerDigits marker rest
    else findMarkerDigits marker rest

/-- Worker for `collapseRuns`: the flag records whether the previous
character was part of a run being replaced. -/
def collapseRunsAux (bad : Char → Bool) (rep : Char) : Bool → List Char → List Char
  | _, [] => []
  | inRun, c :: rest =>
    if bad c then
      if inRun then collapseRunsAux bad rep true rest
      else rep :: collapseRunsAux bad rep true rest
    else c :: collapseRunsAux bad rep false rest

/-- JavaScript `s.replace(/bad+/g, rep)` where `bad` is a character class:
every maximal run of characters satisfying `bad` collapses to the single
character `rep`. -/
def collapseRuns (bad : Char → Bool) (rep : Char) (l : List Char) : List Char :=
  collapseRunsAux bad rep false l

/-- JavaScript `s.replace(/^-+|-+$/g, '')`: strips leading and trailing
hyphens. -/
def trimDashes (l : List Char) : List Char :=
  ((l.dropWhile (· = '-')).reverse.dropWhile (· = '-')).reverse

/-! ## Data model -/

/-- A ticket topic, as stored in the guild configuration (`TicketTopicSchema`
in `db_config.js`, plain JSON objects in the file-backed variant). -/
structure Topic where
  label : String
  value : String
  description : String
  emoji : Option String
deriving DecidableEq, Repr

/-- The per-guild configuration document of the database variant
(`GuildConfigSchema` in `db_config.js`).  `none` models the JavaScript
`null` defaults. -/
structure GuildConfig where
  guildId : String
  categoryId : Option String
  logsChannelId : Option String
  supportRoleId : Option String
  ticketTopics : List Topic
deriving DecidableEq, Repr

/-- The per-guild entry of `config.json` in the file-backed variant; the
`/ticket-config` command there takes all three ids as required options and
writes them together. -/
structure FileGuildConfig where
  categoryId : String
  logsChannelId : String
  supportRoleId : String
  ticketTopics : List Topic
deriving DecidableEq, Repr

/-- Discord channel types that the code distinguishes. -/
inductive ChanType
  | guildText
  | guildCategory
  | other
deriving DecidableEq, Repr

/-- A guild channel, restricted to the fields the bot reads: id, name,
parent category, type and topic text (`null` topic modelled as `none`). -/
structure Channel where
  id : String
  name : String
  parentId : Option String
  type : ChanType
  topic : Option String
deriving DecidableEq, Repr

/-- Errors of the topic-registry commands (`/ticket-topic add|remove`). -/
inductive TopicErr
  | InvalidTopicKey
  | DuplicateTopicKey
  | TopicLimitExceeded
  | TopicNotFound
deriving DecidableEq, Repr

/-! ## Topic registry, database variant (`commands.js` of the DB variant) -/

namespace Db

/-- Topic-key sanitization of the DB variant:
`value.toLowerCase().replace(/[^a-z0-9_]+/g, '')`. -/
def sanitizeTopicValue (s : String) : String :=
  String.mk ((s.toList.map Char.toLower).filter isKeyChar)

/-- The `/ticket-topic add` subcommand of the DB variant: sanitizes the raw
value, rejects duplicates, then appends.  This variant performs no
emptiness check and no 25-topic limit check. -/
def ticketTopicAdd (topics : List Topic) (label rawValue description : String)
    (emoji : Option String) : Except TopicErr (List Topic) :=
  let value := sanitizeTopicValue rawValue
  if topics.any (fun t => t.value = value) then .error .DuplicateTopicKey
  else .ok (topics ++ [⟨label, value, description, emoji⟩])

/-- The `/ticket-topic remove` subcommand (identical filter-then-compare
logic in both variants): filters out the value and reports `TopicNotFound`
when the length did not change. -/
def ticketTopicRemove (topics : List Topic) (value : String) :
    Except TopicErr (List Topic) :=
  let filtered := topics.filter (fun t => ¬ t.value = value)
  if filtered.length = topics.length then .error .TopicNotFound
  else .ok filtered

/-- One topic-registry operation of the DB variant. -/
inductive TopicOp
  | add (label rawValue description : String) (emoji : Option String)
  | remove (value : String)
deriving Repr

/-- Applies a topic operation; a failed operation returns before
`setGuildConfig`, so the stored list is unchanged. -/
def applyTopicOp (topics : List Topic) (op : TopicOp) : List Topic :=
  match op with
  | .add label rawValue description emoji =>
    match ticketTopicAdd topics label rawValue description emoji with
    | .ok l => l
    | .error _ => topics
  | .remove value =>
    match ticketTopicRemove topics value with
    | .ok l => l
    | .error _ => topics

/-- Runs a sequence of topic operations from an initial list (a fresh guild
config starts with `ticketTopics = []`). -/
def runTopicOps (topics : List Topic) (ops : List TopicOp) : List Topic :=
  ops.foldl applyTopicOp topics

end Db

/-! ## Topic registry, file-backed variant (`commands.js` of the select-menu
variant) -/

namespace Fs

/-- Topic-key sanitization of the file-backed variant:
`value.toLowerCase().replace(/\s+/g, '_').replace(/[^a-z0-9_]/g, '')` —
note the extra step turning every whitespace run into one underscore. -/
def sanitizeTopicValue (s : String) : String :=
  String.mk ((collapseRuns Char.isWhitespace '_' (s.toList.map Char.toLower)).filter isKeyChar)

/-- The `/ticket-topic add` subcommand of the file-backed variant: empty
sanitized key is rejected, then duplicates, then the 25-topic limit, then
the topic is appended. -/
def ticketTopicAdd (topics : List Topic) (label rawValue description : String)
    (emoji : Option String) : Except TopicErr (List Topic) :=
  let value := sanitizeTopicValue rawValue
  if value = "" then .error .InvalidTopicKey
  else if (topics.find? (fun t => t.value = value)).isSome then .error .DuplicateTopicKey
  else if 25 ≤ topics.length then .error .TopicLimitExceeded
  else .ok (topics ++ [⟨label, value, description, emoji⟩])

/-- The `/ticket-topic remove` subcommand of the file-backed variant (same
filter-then-compare logic as the DB variant). -/
def ticketTopicRemove (topics : List Topic) (value : String) :
    Except TopicErr (List Topic) :=
  let filtered := topics.filter (fun t => ¬ t.value = value)
  if filtered.length = topics.length then .error .TopicNotFound
  else .ok filtered

/-- One topic-registry operation of the file-backed variant. -/
inductive TopicOp
  | add (label rawValue description : String) (emoji : Option String)
  | remove (value : String)
deriving Repr

/-- Applies a topic operation; a failed operation replies before
`writeConfig`, so the stored list is unchanged. -/
def applyTopicOp (topics : List Topic) (op : TopicOp) : List Topic :=
  match op with
  | .add label rawValue description emoji =>
    match ticketTopicAdd topics label rawValue description emoji with
    | .ok l => l
    | .error _ => topics
  | .remove value =>
    match ticketTopicRemove topics value with
    | .ok l => l
    | .error _ => topics

/-- Runs a sequence of topic operations from an initial list. -/
def runTopicOps (topics : List Topic) (ops : List TopicOp) : List Topic :=
  ops.foldl applyTopicOp topics

end Fs

/-! ## Ticket lifecycle handlers -/

/-- Errors of the ticket-creation flow. -/
inductive CreateErr
  | NotConfigured
  | UnknownTopic
  | DuplicateTicket (channelId : String)
  | CooldownActive (remainingSeconds : Nat)
  | ChannelCreateFailed
deriving DecidableEq, Repr

/-- Errors of the per-channel ticket commands. -/
inductive TicketCmdErr
  | NotATicketChannel
  | CreatorNotFound
  | InvalidName
deriving DecidableEq, Repr

/-- Observable side effects of the ticket-closure sequence, in program
order.  `logsMessage` is a successful logs-channel message carrying the
transcript attachment; `logsSendFailed` is an attempted logs-channel send
that failed; `channelWarning` is a warning posted inside the ticket
channel; `dmAttempt` is an attempted direct message (with transcript) to
the recorded ticket creator. -/
inductive CloseEffect
  | transcript
  | logsMessage
  | logsSendFailed
  | channelWarning
  | dmAttempt (userId : String)
  | closingNotice
  | deleteChannel
deriving DecidableEq, Repr

/-- Decides whether an effect is a direct-message attempt. -/
def isDmAttempt : CloseEffect → Bool
  | .dmAttempt _ => true
  | _ => false

/-- Outcome reported by the claim handlers. -/
inductive ClaimOutcome
  | claimed
  | alreadyByYou
  | alreadyByOther (claimer : String)
deriving DecidableEq, Repr

namespace Db

/-- Parses the creator id out of a channel topic, the regex
`/UserID: (\d+)/` of `handleCloseTicket`/`handleLockTicket`. -/
def extractUserId (topic : Option String) : Option String :=
  match topic with
  | none => none
  | some t => (findMarkerDigits "UserID: ".toList t.toList).map String.mk

/-- First capture of `/ticket-(\d+)/` on a channel name, as a number. -/
def findTicketNum (s : String) : Option Nat :=
  (findMarkerDigits "ticket-".toList s.toList).map digitsToNat

/-- `getNextTicketNumber` of `index.js`: 1 when the category is missing or
not a category, otherwise one more than the largest number matched by
`/ticket-(\d+)/` among the category's text channels named `ticket-…`
(`maxNumber` starts at 0, so 1 when nothing parses). -/
def getNextTicketNumber (channels : List Channel) (categoryId : String) : Nat :=
  match channels.find? (fun c => c.id = categoryId) with
  | none => 1
  | some category =>
    if ¬ category.type = .guildCategory then 1
    else
      let ticketChannels := channels.filter (fun c =>
        c.parentId = some categoryId && strStartsWith c.name "ticket-" &&
          c.type = .guildText)
      (ticketChannels.foldl (fun maxNumber c =>
        match findTicketNum c.name with
        | some number => if maxNumber < number then number else maxNumber
        | none => maxNumber) 0) + 1

/-- The duplicate-open-ticket scan of `handleTicketCreation`: the first
channel whose name starts with `ticket-` and whose topic contains
`UserID: {userId}`. -/
def dupTicketScan (channels : List Channel) (userId : String) : Option Channel :=
  channels.find? (fun c =>
    strStartsWith c.name "ticket-" &&
      match c.topic with
      | some t => strContains t ("UserID: " ++ userId)
      | none => false)

/-- `handleTicketCreation` of `index.js` as a transformer of the guild's
channel list: configuration check, topic lookup, duplicate scan, then the
channel is created under the category with the metadata topic string.  The
new channel's id is modelled by its name (Discord assigns a fresh
snowflake).  Note this variant has no cooldown check. -/
def handleTicketCreation (config : GuildConfig) (topicValue : String)
    (channels : List Channel) (userId : String) :
    List Channel × Option CreateErr :=
  match config.categoryId, config.supportRoleId with
  | some categoryId, some _ =>
    match config.ticketTopics.find? (fun t => t.value = topicValue) with
    | none => (channels, some .UnknownTopic)
    | some topic =>
      match dupTicketScan channels userId with
      | some existing => (channels, some (.DuplicateTicket existing.id))
      | none =>
        let ticketNumber := getNextTicketNumber channels categoryId
        let channelName := "ticket-" ++ toString ticketNumber
        let newChannel : Channel :=
          { id := channelName
            name := channelName
            parentId := some categoryId
            type := ChanType.guildText
            topic := some ("Ticket ID: " ++ channelName ++ " | UserID: " ++ userId ++
              " | Topic: " ++ topic.label) }
        (channels ++ [newChannel], none)
  | _, _ => (channels, some .NotConfigured)

/-- `handleClaimTicket` of `index.js` on the claim state recorded in the
channel topic (`Claimed By: {id}`, parsed back by regex): an existing
claim blocks a non-forced claim (notice when it is the requester's own),
otherwise the topic is rewritten with the requester as claimer. -/
def handleClaimTicket (claimedBy : Option String) (userId : String)
    (forceClaim : Bool) : Option String × ClaimOutcome :=
  match claimedBy, forceClaim with
  | some currentClaimerId, false =>
    if currentClaimerId = userId then (some currentClaimerId, .alreadyByYou)
    else (some currentClaimerId, .alreadyByOther currentClaimerId)
  | _, _ => (some userId, .claimed)

/-- `handleLockTicket` of `index.js`: name gate, creator extraction, then
the creator's `SendMessages` overwrite is set to `!lockState`. -/
def handleLockTicket (channelName : String) (channelTopic : Option String)
    (lockState : Bool) : Except TicketCmdErr (String × Bool) :=
  if ¬ strStartsWith channelName "ticket-" then .error .NotATicketChannel
  else match extractUserId channelTopic with
    | none => .error .CreatorNotFound
    | some ticketUserId => .ok (ticketUserId, !lockState)

/-- The rename sanitizer of `handleRenameTicket`:
`newName.toLowerCase().replace(/[^a-z0-9]+/g, '-').replace(/^-+|-+$/g, '')`. -/
def renameSanitize (newName : String) : String :=
  String.mk (trimDashes (collapseRuns (fun c => ¬ isNameChar c) '-'
    (newName.toList.map Char.toLower)))

/-- `handleRenameTicket` of `index.js`: name gate, sanitize, then the
2–100 length check; on success the channel takes the sanitized name. -/
def handleRenameTicket (channelName newName : String) :
    Except TicketCmdErr String :=
  if ¬ strStartsWith channelName "ticket-" then .error .NotATicketChannel
  else
    let safeName := renameSanitize newName
    if safeName.length < 2 || 100 < safeName.length then .error .InvalidName
    else .ok safeName

/-- Permission action applied by `handleUserManagement`. -/
inductive UserMgmt
  | added (userId : String)
  | removed (userId : String)
deriving DecidableEq, Repr

/-- `handleUserManagement` of `index.js`: name gate, then the permission
overwrite edit (add) or deletion (remove) for the target user. -/
def handleUserManagement (channelName userId : String) (isAdd : Bool) :
    Except TicketCmdErr UserMgmt :=
  if ¬ strStartsWith channelName "ticket-" then .error .NotATicketChannel
  else .ok (if isAdd then .added userId else .removed userId)

/-- The effect sequence of `handleCloseTicket` after the name gate:
transcript, logs send (failure caught with a console log only), DM attempt
when a creator id parses from the topic, closing notice unless `silent`,
then channel deletion. -/
def closeEffects (channelTopic : Option String)
    (logsConfigured logsChannelExists logsSendFails silent : Bool) :
    List CloseEffect :=
  [.transcript] ++
  (if logsConfigured && logsChannelExists then
      if logsSendFails then [.logsSendFailed] else [.logsMessage]
    else []) ++
  (match extractUserId channelTopic with
   | some ticketUserId => [.dmAttempt ticketUserId]
   | none => []) ++
  (if silent then [] else [.closingNotice]) ++
  [.deleteChannel]

/-- `handleCloseTicket` of `index.js`: the `ticket-` name gate guards the
whole closure sequence. -/
def handleCloseTicket (channelName : String) (channelTopic : Option String)
    (logsConfigured logsChannelExists logsSendFails silent : Bool) :
    Except TicketCmdErr (List CloseEffect) :=
  if ¬ strStartsWith channelName "ticket-" then .error .NotATicketChannel
  else .ok (closeEffects channelTopic logsConfigured logsChannelExists
    logsSendFails silent)

end Db

namespace Fs

/-- `TICKET_COOLDOWN_MINUTES` of the file-backed `index.js`. -/
def TICKET_COOLDOWN_MINUTES : Nat := 3

/-- `getTicketCreatorId`: first capture of `/User ID: (\d+)/` on the
channel topic. -/
def getTicketCreatorId (topic : Option String) : Option String :=
  match topic with
  | none => none
  | some t => (findMarkerDigits "User ID: ".toList t.toList).map String.mk

/-- `client.ticketCooldowns.get(userId)` on the process-wide cooldown map
(keyed by user id only — no guild component). -/
def lookupCooldown (cooldowns : List (String × Nat)) (userId : String) :
    Option Nat :=
  (cooldowns.find? (fun e => e.1 = userId)).map (fun e => e.2)

/-- `client.ticketCooldowns.set(userId, endTime)`. -/
def setCooldown (cooldowns : List (String × Nat)) (userId : String)
    (endTime : Nat) : List (String × Nat) :=
  (cooldowns.filter (fun e => ¬ e.1 = userId)) ++ [(userId, endTime)]

/-- `Math.ceil(ms / 1000)` on a nonnegative millisecond count. -/
def ceilSeconds (ms : Nat) : Nat := (ms + 999) / 1000

/-- The process-wide mutable state of the file-backed variant: the guild's
channels and the in-memory cooldown map. -/
structure ProcState where
  channels : List Channel
  cooldowns : List (String × Nat)
deriving DecidableEq, Repr

/-- The duplicate-open-ticket scan of `handleSelectMenuInteraction`: the
first channel under the configured category whose topic contains
`User ID: {userId}`. -/
def dupTicketScan (config : FileGuildConfig) (channels : List Channel)
    (userId : String) : Option Channel :=
  channels.find? (fun c =>
    c.parentId = some config.categoryId &&
      match c.topic with
      | some t => strContains t ("User ID: " ++ userId)
      | none => false)

/-- `handleSelectMenuInteraction` of the file-backed `index.js`, the check
sequence before the creation modal is shown: cooldown first (an entry in
the map counts as active regardless of `now`), then the existing-ticket
scan, then the topic lookup.  `none` means the modal is shown; no state is
mutated here. -/
def handleSelectMenu (config : FileGuildConfig) (st : ProcState) (now : Nat)
    (userId topicValue : String) : Option CreateErr :=
  match lookupCooldown st.cooldowns userId with
  | some cooldownData =>
    some (.CooldownActive (ceilSeconds (cooldownData - now)))
  | none =>
    match dupTicketScan config st.channels userId with
    | some existing => some (.DuplicateTicket existing.id)
    | none =>
      if (config.ticketTopics.find? (fun t => t.value = topicValue)).isNone then
        some .UnknownTopic
      else none

/-- `handleModalSubmit` of the file-backed `index.js`: topic lookup, then
channel creation (`createFails` models a thrown `channels.create`, caught
by the handler), then — only on success — the cooldown entry
`now + TICKET_COOLDOWN_MINUTES * 60 * 1000` keyed by the user id alone.
The new channel is named `{topic.value}-{first 15 chars of username}` and
its topic embeds `User ID: {userId}`. -/
def handleModalSubmit (config : FileGuildConfig) (st : ProcState) (now : Nat)
    (userId userTag username topicValue subject : String)
    (createFails : Bool) : ProcState × Option CreateErr :=
  match config.ticketTopics.find? (fun t => t.value = topicValue) with
  | none => (st, some .UnknownTopic)
  | some topic =>
    if createFails then (st, some .ChannelCreateFailed)
    else
      let channelName := topic.value ++ "-" ++ strTake username 15
      let newChannel : Channel :=
        { id := channelName
          name := channelName
          parentId := some config.categoryId
          type := ChanType.guildText
          topic := some ("Ticket for " ++ userTag ++ " (User ID: " ++ userId ++
            "). Subject: " ++ subject) }
      let cooldownEndTime := now + TICKET_COOLDOWN_MINUTES * 60 * 1000
      ({ channels := st.channels ++ [newChannel]
         cooldowns := setCooldown st.cooldowns userId cooldownEndTime }, none)

/-- The literal value of the control panel's claim field when unclaimed. -/
def unclaimedValue : String := "`Unclaimed`"

/-- The literal status-field value of an open, unclaimed ticket. -/
def openValue : String := "`Open`"

/-- The literal status-field value of a claimed ticket. -/
def inProgressValue : String := "`In Progress`"

/-- The literal status-field value of a locked ticket. -/
def lockedValue : String := "`Locked`"

/-- The two mutable fields of the bot's control-panel embed in a ticket
channel: the claim field and the status field. -/
structure ControlPanel where
  claimedBy : String
  status : String
deriving DecidableEq, Repr

/-- `handleClaimTicket` of the file-backed `index.js` on the control-panel
fields: an existing claim by someone else is refused (with or without the
command's `force` flag — that flag only selects the reply transport), an
own claim yields the already-claimed notice, otherwise the claim field
takes the requester's mention and the status becomes In Progress. -/
def claimPanel (p : ControlPanel) (userMention : String) :
    ControlPanel × ClaimOutcome :=
  if ¬ p.claimedBy = unclaimedValue && ¬ p.claimedBy = userMention then
    (p, .alreadyByOther p.claimedBy)
  else if p.claimedBy = userMention then (p, .alreadyByYou)
  else ({ claimedBy := userMention, status := inProgressValue }, .claimed)

/-- `handleUnclaimTicket`: the claim field reverts to Unclaimed and the
status to Open. -/
def unclaimPanel (_p : ControlPanel) : ControlPanel :=
  { claimedBy := unclaimedValue, status := openValue }

/-- The lock branch of `handleLockTicket`: the status field becomes Locked
regardless of the claim field (the creator's `SendMessages` overwrite is
set to false alongside). -/
def lockPanel (p : ControlPanel) : ControlPanel :=
  { p with status := lockedValue }

/-- The unlock branch of `handleLockTicket`: the status field reverts to
Open or In Progress according to the current claim field. -/
def unlockPanel (p : ControlPanel) : ControlPanel :=
  { p with status :=
      if p.claimedBy = unclaimedValue then openValue else inProgressValue }

/-- The effect sequence of `closeTicket` in the file-backed `index.js`:
transcript, then the logs-channel send — a failed send is caught and a
warning is posted inside the ticket channel, a missing logs channel also
yields an in-channel warning — then the closing notice and the deletion.
No direct message is ever sent to the creator in this variant. -/
def closeTicket (logsChannelExists logsSendFails : Bool) : List CloseEffect :=
  [.transcript] ++
  (if logsChannelExists then
      if logsSendFails then [.logsSendFailed, .channelWarning]
      else [.logsMessage]
    else [.channelWarning]) ++
  [.closingNotice, .deleteChannel]

end Fs

/-- Modelled from the claim's words, for comparison with
`Fs.handleSelectMenu`: the precondition order the claim asserts —
configuration, then topic existence, then the duplicate-ticket scan, then
the cooldown.  The configuration step passes vacuously here because the
file-backed config always carries a category and support role. -/
def claimOrderCreateCheck (config : FileGuildConfig) (st : Fs.ProcState)
    (now : Nat) (userId topicValue : String) : Option CreateErr :=
  if (config.ticketTopics.find? (fun t => t.value = topicValue)).isNone then
    some .UnknownTopic
  else
    match Fs.dupTicketScan config st.channels userId with
    | some existing => some (.DuplicateTicket existing.id)
    | none =>
      match Fs.lookupCooldown st.cooldowns userId with
      | some cooldownData =>
        some (.CooldownActive (Fs.ceilSeconds (cooldownData - now)))
      | none => none

/-! ## Helper lemmas for the topic registry -/

/-- A failed `Array.some`-style duplicate check means the value is absent. -/
theorem any_value_eq_false {topics : List Topic} {v : String}
    (h : ¬ topics.any (fun t => t.value = v) = true) :
    v ∉ topics.map Topic.value := by
  intro hmem
  apply h
  simp only [List.any_eq_true, decide_eq_true_eq]
  obtain ⟨t, ht, hv⟩ := List.mem_map.mp hmem
  exact ⟨t, ht, hv⟩

/-- A failed `find?`-style duplicate check means the value is absent. -/
theorem find_value_eq_false {topics : List Topic} {v : String}
    (h : ¬ (topics.find? (fun t => t.value = v)).isSome = true) :
    v ∉ topics.map Topic.value := by
  intro hmem
  apply h
  obtain ⟨t, ht, hv⟩ := List.mem_map.mp hmem
  exact List.find?_isSome.mpr ⟨t, ht, by simpa using hv⟩

/-- Membership makes the `find?` duplicate check fire. -/
theorem find_value_isSome {topics : List Topic} {v : String}
    (h : v ∈ topics.map Topic.value) :
    (topics.find? (fun t => t.value = v)).isSome = true := by
  obtain ⟨t, ht, hv⟩ := List.mem_map.mp h
  exact List.find?_isSome.mpr ⟨t, ht, by simpa using hv⟩

/-- Membership makes the `some`-style duplicate check fire. -/
theorem any_value_eq_true {topics : List Topic} {v : String}
    (h : v ∈ topics.map Topic.value) :
    topics.any (fun t => t.value = v) = true := by
  obtain ⟨t, ht, hv⟩ := List.mem_map.mp h
  exact List.any_eq_true.mpr ⟨t, ht, by simpa using hv⟩

/-- Appending a topic with a fresh value keeps the values duplicate-free. -/
theorem values_nodup_append {topics : List Topic} {t : Topic}
    (h : (topics.map Topic.value).Nodup) (hv : t.value ∉ topics.map Topic.value) :
    ((topics ++ [t]).map Topic.value).Nodup := by
  simp only [List.map_append, List.map_cons, List.map_nil]
  simp [List.nodup_append, h, hv]

/-- Filtering keeps the values duplicate-free. -/
theorem values_nodup_filter {topics : List Topic} (p : Topic → Bool)
    (h : (topics.map Topic.value).Nodup) :
    ((topics.filter p).map Topic.value).Nodup :=
  List.Nodup.sublist (List.Sublist.map Topic.value (List.filter_sublist topics)) h

/-- Removing an absent value is reported as `TopicNotFound` (shared remove
logic of the two variants). -/
theorem remove_absent_not_found {topics : List Topic} {v : String}
    (h : v ∉ topics.map Topic.value) :
    Db.ticketTopicRemove topics v = .error .TopicNotFound := by
  unfold Db.ticketTopicRemove
  have hall : ∀ t ∈ topics, (decide (¬ t.value = v)) = true := by
    intro t ht
    simp only [decide_eq_true_eq]
    intro hv
    exact h (List.mem_map.mpr ⟨t, ht, hv⟩)
  rw [List.filter_eq_self.mpr hall]
  simp

/-- The DB-variant topic add keeps values duplicate-free. -/
theorem db_apply_nodup (topics : List Topic) (op : Db.TopicOp)
    (h : (topics.map Topic.value).Nodup) :
    ((Db.applyTopicOp topics op).map Topic.value).Nodup := by
  cases op with
  | add label rawValue description emoji =>
    by_cases hc : topics.any
        (fun t => t.value = Db.sanitizeTopicValue rawValue) = true
    · simp [Db.applyTopicOp, Db.ticketTopicAdd, hc, h]
    · simp only [Db.applyTopicOp, Db.ticketTopicAdd, if_neg hc]
      exact values_nodup_append h (any_value_eq_false hc)
  | remove value =>
    by_cases hlen : (topics.filter (fun t => ¬ t.value = value)).length =
      topics.length
    · simp only [Db.applyTopicOp, Db.ticketTopicRemove, if_pos hlen]
      exact h
    · simp only [Db.applyTopicOp, Db.ticketTopicRemove, if_neg hlen]
      exact values_nodup_filter _ h

/-- The file-variant topic add keeps values duplicate-free. -/
theorem fs_apply_nodup (topics : List Topic) (op : Fs.TopicOp)
    (h : (topics.map Topic.value).Nodup) :
    ((Fs.applyTopicOp topics op).map Topic.value).Nodup := by
  cases op with
  | add label rawValue description emoji =>
    by_cases he : Fs.sanitizeTopicValue rawValue = ""
    · simp [Fs.applyTopicOp, Fs.ticketTopicAdd, he, h]
    · by_cases hc : (topics.find?
          (fun t => t.value = Fs.sanitizeTopicValue rawValue)).isSome = true
      · simp [Fs.applyTopicOp, Fs.ticketTopicAdd, he, hc, h]
      · by_cases hl : 25 ≤ topics.length
        · simp [Fs.applyTopicOp, Fs.ticketTopicAdd, he, hc, hl, h]
        · simp only [Fs.applyTopicOp, Fs.ticketTopicAdd, if_neg he, if_neg hc,
            if_neg hl]
          exact values_nodup_append h (find_value_eq_false hc)
  | remove value =>
    by_cases hlen : (topics.filter (fun t => ¬ t.value = value)).length =
      topics.length
    · simp only [Fs.applyTopicOp, Fs.ticketTopicRemove, if_pos hlen]
      exact h
    · simp only [Fs.applyTopicOp, Fs.ticketTopicRemove, if_neg hlen]
      exact values_nodup_filter _ h

/-- The file-variant topic operations keep the list within 25 entries. -/
theorem fs_apply_len_le (topics : List Topic) (op : Fs.TopicOp)
    (h : topics.length ≤ 25) :
    (Fs.applyTopicOp topics op).length ≤ 25 := by
  cases op with
  | add label rawValue description emoji =>
    by_cases he : Fs.sanitizeTopicValue rawValue = ""
    · simpa [Fs.applyTopicOp, Fs.ticketTopicAdd, he] using h
    · by_cases hc : (topics.find?
          (fun t => t.value = Fs.sanitizeTopicValue rawValue)).isSome = true
      · simpa [Fs.applyTopicOp, Fs.ticketTopicAdd, he, hc] using h
      · by_cases hl : 25 ≤ topics.length
        · simpa [Fs.applyTopicOp, Fs.ticketTopicAdd, he, hc, hl] using h
        · simp only [Fs.applyTopicOp, Fs.ticketTopicAdd, if_neg he, if_neg hc,
            if_neg hl, List.length_append, List.length_cons, List.length_nil]
          omega
  | remove value =>
    by_cases hlen : (topics.filter (fun t => ¬ t.value = value)).length =
      topics.length
    · simp only [Fs.applyTopicOp, Fs.ticketTopicRemove, if_pos hlen]
      exact h
    · simp only [Fs.applyTopicOp, Fs.ticketTopicRemove, if_neg hlen]
      exact le_trans (List.length_filter_le _ _) h

/-- An absent value makes the remove filter keep everything. -/
theorem filter_value_eq_self {topics : List Topic} {v : String}
    (h : v ∉ topics.map Topic.value) :
    topics.filter (fun t => ¬ t.value = v) = topics := by
  apply List.filter_eq_self.mpr
  intro t ht
  simp only [decide_eq_true_eq]
  intro hv
  exact h (List.mem_map.mpr ⟨t, ht, hv⟩)

/-- An absent value makes the `some`-style duplicate check fail. -/
theorem any_value_eq_false_of_not_mem {topics : List Topic} {v : String}
    (h : v ∉ topics.map Topic.value) :
    topics.any (fun t => t.value = v) = false := by
  cases ha : topics.any (fun t => t.value = v)
  · rfl
  · obtain ⟨t, ht, hv⟩ := List.any_eq_true.mp ha
    exact absurd (List.mem_map.mpr ⟨t, ht, by simpa using hv⟩) h

/-- An absent value makes the `find?`-style duplicate check fail. -/
theorem find_value_isSome_eq_false {topics : List Topic} {v : String}
    (h : v ∉ topics.map Topic.value) :
    (topics.find? (fun t => t.value = v)).isSome = false := by
  cases hs : (topics.find? (fun t => t.value = v)).isSome
  · rfl
  · obtain ⟨t, ht, hv⟩ := List.find?_isSome.mp hs
    exact absurd (List.mem_map.mpr ⟨t, ht, by simpa using hv⟩) h

/-- Any DB-variant operation sequence preserves distinct values. -/
theorem db_run_nodup : ∀ (ops : List Db.TopicOp) (topics : List Topic),
    (topics.map Topic.value).Nodup →
    ((Db.runTopicOps topics ops).map Topic.value).Nodup
  | [], _, h => h
  | op :: ops, topics, h =>
    db_run_nodup ops (Db.applyTopicOp topics op) (db_apply_nodup topics op h)

/-- Any file-variant operation sequence preserves distinct values. -/
theorem fs_run_nodup : ∀ (ops : List Fs.TopicOp) (topics : List Topic),
    (topics.map Topic.value).Nodup →
    ((Fs.runTopicOps topics ops).map Topic.value).Nodup
  | [], _, h => h
  | op :: ops, topics, h =>
    fs_run_nodup ops (Fs.applyTopicOp topics op) (fs_apply_nodup topics op h)

/-- Any file-variant operation sequence preserves the 25-topic bound. -/
theorem fs_run_len_le : ∀ (ops : List Fs.TopicOp) (topics : List Topic),
    topics.length ≤ 25 → (Fs.runTopicOps topics ops).length ≤ 25
  | [], _, h => h
  | op :: ops, topics, h =>
    fs_run_len_le ops (Fs.applyTopicOp topics op) (fs_apply_len_le topics op h)

/-- C3: in both variants the stored topic values are pairwise distinct after
any sequence of add/remove operations starting from the empty default
config; adding an already-present (sanitized) value fails with
`DuplicateTopicKey`; removing an absent value fails with `TopicNotFound`
and leaves the stored list unchanged. -/
theorem c3_topic_values_unique :
    (∀ ops : List Db.TopicOp,
        ((Db.runTopicOps [] ops).map Topic.value).Nodup) ∧
    (∀ ops : List Fs.TopicOp,
        ((Fs.runTopicOps [] ops).map Topic.value).Nodup) ∧
    (∀ topics label rawValue description emoji,
        Db.sanitizeTopicValue rawValue ∈ topics.map Topic.value →
        Db.ticketTopicAdd topics label rawValue description emoji =
          .error .DuplicateTopicKey) ∧
    (∀ topics label rawValue description emoji,
        ¬ Fs.sanitizeTopicValue rawValue = "" →
        Fs.sanitizeTopicValue rawValue ∈ topics.map Topic.value →
        Fs.ticketTopicAdd topics label rawValue description emoji =
          .error .DuplicateTopicKey) ∧
    (∀ topics value, value ∉ topics.map Topic.value →
        Db.ticketTopicRemove topics value = .error .TopicNotFound ∧
        Fs.ticketTopicRemove topics value = .error .TopicNotFound ∧
        Db.applyTopicOp topics (.remove value) = topics ∧
        Fs.applyTopicOp topics (.remove value) = topics) := by
  refine ⟨fun ops => db_run_nodup ops [] (by simp),
    fun ops => fs_run_nodup ops [] (by simp), ?_, ?_, ?_⟩
  · intro topics label rawValue description emoji hmem
    simp only [Db.ticketTopicAdd]
    rw [if_pos (any_value_eq_true hmem)]
  · intro topics label rawValue description emoji hne hmem
    simp only [Fs.ticketTopicAdd]
    rw [if_neg hne, if_pos (find_value_isSome hmem)]
  · intro topics value hmem
    have hfix := filter_value_eq_self hmem
    have hdb : Db.ticketTopicRemove topics value = .error .TopicNotFound := by
      simp only [Db.ticketTopicRemove, hfix]
      simp only [eq_self_iff_true, if_true]
    have hfs : Fs.ticketTopicRemove topics value = .error .TopicNotFound := by
      simp only [Fs.ticketTopicRemove, hfix]
      simp only [eq_self_iff_true, if_true]
    refine ⟨hdb, hfs, ?_, ?_⟩
    · simp only [Db.applyTopicOp, hdb]
    · simp only [Fs.applyTopicOp, hfs]

/-- Closed instantiation of `c3_topic_values_unique`. -/
theorem c3_witness :
    ((Db.runTopicOps [] [Db.TopicOp.add "A" "alpha" "d" none,
        Db.TopicOp.add "B" "alpha" "d" none]).map Topic.value).Nodup ∧
    Db.ticketTopicAdd [⟨"A", "alpha", "d", none⟩] "B" "alpha" "d" none =
      .error .DuplicateTopicKey ∧
    Fs.ticketTopicAdd [⟨"A", "alpha", "d", none⟩] "B" "alpha" "d" none =
      .error .DuplicateTopicKey ∧
    Fs.ticketTopicRemove [] "missing" = .error .TopicNotFound :=
  ⟨c3_topic_values_unique.1 _,
   c3_topic_values_unique.2.2.1 [⟨"A", "alpha", "d", none⟩] "B" "alpha" "d"
     none (by decide),
   c3_topic_values_unique.2.2.2.1 [⟨"A", "alpha", "d", none⟩] "B" "alpha" "d"
     none (by decide) (by decide),
   (c3_topic_values_unique.2.2.2.2 [] "missing" (by decide)).2.1⟩

/-- Twenty-five topics with pairwise distinct values `t0` … `t24`. -/
def topics25 : List Topic :=
  (List.range 25).map (fun i => ⟨"Label", "t" ++ toString i, "desc", none⟩)

/-- C2 counterexample: the DB variant's `/ticket-topic add` has no limit
check at all — at 25 stored topics a 26th add succeeds and the stored list
grows to length 26, contradicting both halves of the claim. -/
theorem c2_counterexample :
    topics25.length = 25 ∧
    Db.ticketTopicAdd topics25 "Extra" "extra" "desc" none =
      .ok (topics25 ++ [⟨"Extra", "extra", "desc", none⟩]) ∧
    (topics25 ++ [(⟨"Extra", "extra", "desc", none⟩ : Topic)]).length = 26 := by
  refine ⟨by decide, ?_, by decide⟩
  rfl

/-- C2 amended: only the select-menu (file-backed) variant enforces the
25-topic limit — there an add of a fresh valid key at 25 topics fails with
`TopicLimitExceeded` and the list length never exceeds 25 under any
operation sequence; the DB variant has no limit check and an add of any
fresh key succeeds regardless of the current length. -/
theorem c2_topic_limit :
    (∀ topics label rawValue description emoji,
        25 ≤ topics.length →
        ¬ Fs.sanitizeTopicValue rawValue = "" →
        Fs.sanitizeTopicValue rawValue ∉ topics.map Topic.value →
        Fs.ticketTopicAdd topics label rawValue description emoji =
          .error .TopicLimitExceeded) ∧
    (∀ ops : List Fs.TopicOp, (Fs.runTopicOps [] ops).length ≤ 25) ∧
    (∀ topics label rawValue description emoji,
        Db.sanitizeTopicValue rawValue ∉ topics.map Topic.value →
        Db.ticketTopicAdd topics label rawValue description emoji =
          .ok (topics ++
            [⟨label, Db.sanitizeTopicValue rawValue, description, emoji⟩])) := by
  refine ⟨?_, fun ops => fs_run_len_le ops [] (by simp), ?_⟩
  · intro topics label rawValue description emoji hlen hne hmem
    have hfind := find_value_isSome_eq_false hmem
    simp only [Fs.ticketTopicAdd]
    rw [if_neg hne, if_neg (by simp [hfind]), if_pos hlen]
  · intro topics label rawValue description emoji hmem
    have hany := any_value_eq_false_of_not_mem hmem
    simp only [Db.ticketTopicAdd]
    rw [if_neg (by simp [hany])]

/-- Closed instantiation of `c2_topic_limit`. -/
theorem c2_witness :
    Fs.ticketTopicAdd topics25 "Extra" "extra" "desc" none =
      .error .TopicLimitExceeded ∧
    (Fs.runTopicOps [] []).length ≤ 25 ∧
    Db.ticketTopicAdd topics25 "Extra" "extra" "desc" none =
      .ok (topics25 ++
        [⟨"Extra", Db.sanitizeTopicValue "extra", "desc", none⟩]) :=
  ⟨c2_topic_limit.1 topics25 "Extra" "extra" "desc" none (by decide)
     (by decide) (by decide),
   c2_topic_limit.2.1 [],
   c2_topic_limit.2.2 topics25 "Extra" "extra" "desc" none (by decide)⟩

/-- Every character surviving the key filter is a key character. -/
theorem sanitize_chars_of_filter {l : List Char} {c : Char}
    (h : c ∈ l.filter isKeyChar) : isKeyChar c = true :=
  List.of_mem_filter h

/-- C4 counterexample: in the DB variant an all-invalid raw key sanitizes
to the empty string, yet the add succeeds and stores the empty key — the
claim instead requires the add to fail with `InvalidTopicKey` and a
successful add to store a non-empty key. -/
theorem c4_counterexample :
    Db.sanitizeTopicValue "!!!" = "" ∧
    Db.ticketTopicAdd [] "Label" "!!!" "desc" none =
      .ok [⟨"Label", "", "desc", none⟩] := by
  refine ⟨?_, ?_⟩ <;> rfl

/-- C4 amended: both sanitizers lower-case and produce only characters in
`[a-z0-9_]`, but the file-backed variant first turns whitespace runs into
underscores rather than stripping them; only the file-backed variant
rejects an empty sanitized key with `InvalidTopicKey` and hence stores
only non-empty keys on success, while the DB variant performs no emptiness
check and stores the empty key when it sanitizes to one. -/
theorem c4_sanitization :
    (∀ s c, c ∈ (Db.sanitizeTopicValue s).toList → isKeyChar c = true) ∧
    (∀ s c, c ∈ (Fs.sanitizeTopicValue s).toList → isKeyChar c = true) ∧
    (∀ topics label rawValue description emoji,
        Fs.sanitizeTopicValue rawValue = "" →
        Fs.ticketTopicAdd topics label rawValue description emoji =
          .error .InvalidTopicKey) ∧
    (∀ topics label rawValue description emoji newTopics,
        Fs.ticketTopicAdd topics label rawValue description emoji =
          .ok newTopics →
        newTopics = topics ++
          [⟨label, Fs.sanitizeTopicValue rawValue, description, emoji⟩] ∧
        ¬ Fs.sanitizeTopicValue rawValue = "") ∧
    (∀ topics label rawValue description emoji,
        Db.sanitizeTopicValue rawValue = "" →
        "" ∉ topics.map Topic.value →
        Db.ticketTopicAdd topics label rawValue description emoji =
          .ok (topics ++ [⟨label, "", description, emoji⟩])) ∧
    (Fs.sanitizeTopicValue "a b" = "a_b" ∧ Db.sanitizeTopicValue "a b" = "ab") := by
  refine ⟨?_, ?_, ?_, ?_, ?_, by refine ⟨?_, ?_⟩ <;> rfl⟩
  · intro s c hc
    exact sanitize_chars_of_filter hc
  · intro s c hc
    exact sanitize_chars_of_filter hc
  · intro topics label rawValue description emoji he
    simp only [Fs.ticketTopicAdd]
    rw [if_pos he]
  · intro topics label rawValue description emoji newTopics h
    simp only [Fs.ticketTopicAdd] at h
    by_cases he : Fs.sanitizeTopicValue rawValue = ""
    · rw [if_pos he] at h; cases h
    · rw [if_neg he] at h
      by_cases hc : (topics.find?
          (fun t => t.value = Fs.sanitizeTopicValue rawValue)).isSome = true
      · rw [if_pos hc] at h; cases h
      · rw [if_neg hc] at h
        by_cases hl : 25 ≤ topics.length
        · rw [if_pos hl] at h; cases h
        · rw [if_neg hl] at h
          cases h
          exact ⟨rfl, he⟩
  · intro topics label rawValue description emoji hse hmem
    have hany := any_value_eq_false_of_not_mem (v := "") hmem
    simp only [Db.ticketTopicAdd, hse]
    rw [if_neg (by simp [hany])]

/-- Closed instantiation of `c4_sanitization`. -/
theorem c4_witness :
    isKeyChar 'a' = true ∧
    Fs.ticketTopicAdd [] "L" "!!!" "d" none = .error .InvalidTopicKey ∧
    ([(⟨"L", Fs.sanitizeTopicValue "ok", "d", none⟩ : Topic)] =
      [] ++ [⟨"L", Fs.sanitizeTopicValue "ok", "d", none⟩] ∧
      ¬ Fs.sanitizeTopicValue "ok" = "") ∧
    Db.ticketTopicAdd [] "L" "!!!" "d" none =
      .ok ([] ++ [⟨"L", "", "d", none⟩]) :=
  ⟨c4_sanitization.1 "a" 'a' (by decide),
   c4_sanitization.2.2.1 [] "L" "!!!" "d" none (by decide),
   c4_sanitization.2.2.2.1 [] "L" "ok" "d" none _ (by rfl),
   c4_sanitization.2.2.2.2.1 [] "L" "!!!" "d" none (by decide) (by decide)⟩

/-- A configured file-backed guild with one topic, for closed statements. -/
def fileCfgEx : FileGuildConfig :=
  { categoryId := "cat1"
    logsChannelId := "logs1"
    supportRoleId := "role1"
    ticketTopics := [⟨"General", "general", "desc", none⟩] }

/-- The DB-variant creation either leaves the channel list unchanged or
reports no error. -/
theorem db_create_channels_or_none (cfg : GuildConfig) (topicValue : String)
    (channels : List Channel) (userId : String) :
    (Db.handleTicketCreation cfg topicValue channels userId).1 = channels ∨
    (Db.handleTicketCreation cfg topicValue channels userId).2 = none := by
  unfold Db.handleTicketCreation
  cases cfg.categoryId <;> cases cfg.supportRoleId
  · exact Or.inl rfl
  · exact Or.inl rfl
  · exact Or.inl rfl
  · cases cfg.ticketTopics.find? (fun t => t.value = topicValue)
    · exact Or.inl rfl
    · cases Db.dupTicketScan channels userId
      · exact Or.inr rfl
      · exact Or.inl rfl

/-- The DB-variant creation error is one of the three checked kinds. -/
theorem db_create_err_cases (cfg : GuildConfig) (topicValue : String)
    (channels : List Channel) (userId : String) :
    (Db.handleTicketCreation cfg topicValue channels userId).2 =
      some .NotConfigured ∨
    (Db.handleTicketCreation cfg topicValue channels userId).2 =
      some .UnknownTopic ∨
    (∃ cid, (Db.handleTicketCreation cfg topicValue channels userId).2 =
      some (.DuplicateTicket cid)) ∨
    (Db.handleTicketCreation cfg topicValue channels userId).2 = none := by
  unfold Db.handleTicketCreation
  cases cfg.categoryId <;> cases cfg.supportRoleId
  · exact Or.inl rfl
  · exact Or.inl rfl
  · exact Or.inl rfl
  · cases cfg.ticketTopics.find? (fun t => t.value = topicValue)
    · exact Or.inr (Or.inl rfl)
    · cases Db.dupTicketScan channels userId
      · exact Or.inr (Or.inr (Or.inr rfl))
      · exact Or.inr (Or.inr (Or.inl ⟨_, rfl⟩))

/-- The file-variant modal submit either leaves the state unchanged or
reports no error. -/
theorem fs_modal_state_or_none (cfg : FileGuildConfig) (st : Fs.ProcState)
    (now : Nat) (userId userTag username topicValue subject : String)
    (createFails : Bool) :
    (Fs.handleModalSubmit cfg st now userId userTag username topicValue
      subject createFails).1 = st ∨
    (Fs.handleModalSubmit cfg st now userId userTag username topicValue
      subject createFails).2 = none := by
  unfold Fs.handleModalSubmit
  cases cfg.ticketTopics.find? (fun t => t.value = topicValue)
  · exact Or.inl rfl
  · cases createFails
    · exact Or.inr rfl
    · exact Or.inl rfl

/-- C1 counterexample: in the select-menu variant the cooldown is checked
first, not fourth — with an active cooldown and an unknown (removed)
topic, the code answers `CooldownActive` where the claim's stated order
requires `UnknownTopic`. -/
theorem c1_counterexample :
    Fs.handleSelectMenu fileCfgEx ⟨[], [("u1", 500000)]⟩ 200000 "u1" "missing" =
      some (.CooldownActive 300) ∧
    claimOrderCreateCheck fileCfgEx ⟨[], [("u1", 500000)]⟩ 200000 "u1" "missing" =
      some .UnknownTopic := by
  refine ⟨?_, ?_⟩ <;> rfl

/-- C1 amended: the DB variant checks `NotConfigured`, then `UnknownTopic`,
then `DuplicateTicket`, and has no cooldown check at all; the select-menu
variant checks the cooldown first, then the duplicate scan, then the topic
(configuration incompleteness is handled earlier by the router).  In both
variants no channel is created — and in the select-menu variant no
cooldown is written — when any check fails. -/
theorem c1_creation_preconditions :
    (∀ cfg topicValue channels userId,
        (cfg.categoryId = none ∨ cfg.supportRoleId = none) →
        Db.handleTicketCreation cfg topicValue channels userId =
          (channels, some .NotConfigured)) ∧
    (∀ cfg topicValue channels userId,
        cfg.categoryId.isSome = true → cfg.supportRoleId.isSome = true →
        cfg.ticketTopics.find? (fun t => t.value = topicValue) = none →
        Db.handleTicketCreation cfg topicValue channels userId =
          (channels, some .UnknownTopic)) ∧
    (∀ cfg topicValue channels userId existing,
        cfg.categoryId.isSome = true → cfg.supportRoleId.isSome = true →
        (cfg.ticketTopics.find? (fun t => t.value = topicValue)).isSome = true →
        Db.dupTicketScan channels userId = some existing →
        Db.handleTicketCreation cfg topicValue channels userId =
          (channels, some (.DuplicateTicket existing.id))) ∧
    (∀ cfg topicValue channels userId r,
        ¬ (Db.handleTicketCreation cfg topicValue channels userId).2 =
          some (.CooldownActive r)) ∧
    (∀ cfg topicValue channels userId e,
        (Db.handleTicketCreation cfg topicValue channels userId).2 = some e →
        (Db.handleTicketCreation cfg topicValue channels userId).1 = channels) ∧
    (∀ cfg st now userId topicValue cooldownData,
        Fs.lookupCooldown st.cooldowns userId = some cooldownData →
        Fs.handleSelectMenu cfg st now userId topicValue =
          some (.CooldownActive (Fs.ceilSeconds (cooldownData - now)))) ∧
    (∀ cfg st now userId topicValue existing,
        Fs.lookupCooldown st.cooldowns userId = none →
        Fs.dupTicketScan cfg st.channels userId = some existing →
        Fs.handleSelectMenu cfg st now userId topicValue =
          some (.DuplicateTicket existing.id)) ∧
    (∀ cfg st now userId topicValue,
        Fs.lookupCooldown st.cooldowns userId = none →
        Fs.dupTicketScan cfg st.channels userId = none →
        cfg.ticketTopics.find? (fun t => t.value = topicValue) = none →
        Fs.handleSelectMenu cfg st now userId topicValue =
          some .UnknownTopic) ∧
    (∀ cfg st now userId userTag username topicValue subject createFails e,
        (Fs.handleModalSubmit cfg st now userId userTag username topicValue
          subject createFails).2 = some e →
        (Fs.handleModalSubmit cfg st now userId userTag username topicValue
          subject createFails).1 = st) := by
  refine ⟨?_, ?_, ?_, ?_, ?_, ?_, ?_, ?_, ?_⟩
  · intro cfg topicValue channels userId h
    unfold Db.handleTicketCreation
    rcases h with h | h
    · rw [h]
    · rw [h]
      all_goals cases cfg.categoryId <;> rfl
  · intro cfg topicValue channels userId hcat hrole hfind
    obtain ⟨c, hc⟩ := Option.isSome_iff_exists.mp hcat
    obtain ⟨r, hr⟩ := Option.isSome_iff_exists.mp hrole
    unfold Db.handleTicketCreation
    rw [hc, hr, hfind]
  · intro cfg topicValue channels userId existing hcat hrole hfind hdup
    obtain ⟨c, hc⟩ := Option.isSome_iff_exists.mp hcat
    obtain ⟨r, hr⟩ := Option.isSome_iff_exists.mp hrole
    obtain ⟨t, ht⟩ := Option.isSome_iff_exists.mp hfind
    unfold Db.handleTicketCreation
    rw [hc, hr, ht, hdup]
  · intro cfg topicValue channels userId r h
    rcases db_create_err_cases cfg topicValue channels userId with
      hc | hc | ⟨cid, hc⟩ | hc <;> rw [h] at hc <;> cases hc
  · intro cfg topicValue channels userId e h
    rcases db_create_channels_or_none cfg topicValue channels userId with
      hc | hn
    · exact hc
    · rw [h] at hn
      cases hn
  · intro cfg st now userId topicValue cooldownData h
    unfold Fs.handleSelectMenu
    rw [h]
  · intro cfg st now userId topicValue existing hcool hdup
    unfold Fs.handleSelectMenu
    rw [hcool, hdup]
  · intro cfg st now userId topicValue hcool hdup hfind
    unfold Fs.handleSelectMenu
    rw [hcool, hdup, hfind]
    rfl
  · intro cfg st now userId userTag username topicValue subject createFails e h
    rcases fs_modal_state_or_none cfg st now userId userTag username topicValue
      subject createFails with hc | hn
    · exact hc
    · rw [h] at hn
      cases hn

/-- Closed instantiation of `c1_creation_preconditions`. -/
theorem c1_witness :
    Db.handleTicketCreation ⟨"g", none, none, none, []⟩ "x" [] "u1" =
      ([], some .NotConfigured) ∧
    Fs.handleSelectMenu fileCfgEx ⟨[], [("u1", 500000)]⟩ 200000 "u1" "general" =
      some (.CooldownActive (Fs.ceilSeconds (500000 - 200000))) ∧
    (Fs.handleModalSubmit fileCfgEx ⟨[], []⟩ 0 "u1" "tag" "name" "missing"
      "subj" false).1 = ⟨[], []⟩ :=
  ⟨c1_creation_preconditions.1 ⟨"g", none, none, none, []⟩ "x" [] "u1"
     (Or.inl rfl),
   c1_creation_preconditions.2.2.2.2.2.1 fileCfgEx ⟨[], [("u1", 500000)]⟩
     200000 "u1" "general" 500000 (by rfl),
   c1_creation_preconditions.2.2.2.2.2.2.2.2 fileCfgEx ⟨[], []⟩ 0 "u1" "tag"
     "name" "missing" "subj" false .UnknownTopic (by rfl)⟩

/-- C5 counterexample: in the file-backed variant's close sequence with the
claim's scenario (logs channel configured and present, send succeeding) no
direct message to the ticket creator is ever attempted, where the claim
requires exactly one attempted direct message. -/
theorem c5_counterexample :
    (Fs.closeTicket true false).countP isDmAttempt = 0 ∧
    Fs.closeTicket true false =
      [.transcript, .logsMessage, .closingNotice, .deleteChannel] := by
  refine ⟨?_, ?_⟩ <;> rfl

/-- C5 amended: the DB variant's confirmed close (logs configured and
present, creator id parsed from the topic) yields exactly one transcript,
one logs message carrying it when the send succeeds, one attempted DM to
the creator, one closing notice (unless silent), and one channel deletion;
when the logs send fails, deletion and the notice still occur but no
in-channel warning is posted (the failure is only logged to the console).
The file-backed variant yields one transcript, one logs message on
success, no DM at all, one closing notice and one deletion; when its logs
send fails, an in-channel warning is posted and the notice and deletion
still occur. -/
theorem c5_close_sequence :
    (∀ channelTopic u logsSendFails silent,
        Db.extractUserId channelTopic = some u →
        (Db.closeEffects channelTopic true true logsSendFails silent).count
          .transcript = 1 ∧
        (Db.closeEffects channelTopic true true false silent).count
          .logsMessage = 1 ∧
        (Db.closeEffects channelTopic true true logsSendFails silent).countP
          isDmAttempt = 1 ∧
        (¬ silent = true →
          (Db.closeEffects channelTopic true true logsSendFails silent).count
            .closingNotice = 1) ∧
        (Db.closeEffects channelTopic true true logsSendFails silent).count
          .deleteChannel = 1 ∧
        (Db.closeEffects channelTopic true true true silent).count
          .channelWarning = 0) ∧
    ((Fs.closeTicket true false).count .transcript = 1 ∧
     (Fs.closeTicket true false).count .logsMessage = 1 ∧
     (Fs.closeTicket true false).countP isDmAttempt = 0 ∧
     (Fs.closeTicket true false).count .closingNotice = 1 ∧
     (Fs.closeTicket true false).count .deleteChannel = 1 ∧
     (Fs.closeTicket true true).count .channelWarning = 1 ∧
     (Fs.closeTicket true true).count .closingNotice = 1 ∧
     (Fs.closeTicket true true).count .deleteChannel = 1 ∧
     (Fs.closeTicket true true).countP isDmAttempt = 0) := by
  constructor
  · intro channelTopic u logsSendFails silent h
    refine ⟨?_, ?_, ?_, ?_, ?_, ?_⟩ <;>
      cases logsSendFails <;> cases silent <;>
        simp [Db.closeEffects, h, isDmAttempt, List.count_append,
          List.countP_append, List.count_cons, List.countP_cons, List.count_nil,
          List.countP_nil, List.count_singleton]
  · refine ⟨?_, ?_, ?_, ?_, ?_, ?_, ?_, ?_, ?_⟩ <;> rfl

/-- Closed instantiation of `c5_close_sequence`. -/
theorem c5_witness :
    (Db.closeEffects (some "Ticket ID: ticket-7 | UserID: 42 | Topic: General")
      true true false false).countP isDmAttempt = 1 ∧
    (Db.closeEffects (some "Ticket ID: ticket-7 | UserID: 42 | Topic: General")
      true true true false).count .channelWarning = 0 :=
  ⟨(c5_close_sequence.1
      (some "Ticket ID: ticket-7 | UserID: 42 | Topic: General") "42" false
      false (by rfl)).2.2.1,
   (c5_close_sequence.1
      (some "Ticket ID: ticket-7 | UserID: 42 | Topic: General") "42" true
      false (by rfl)).2.2.2.2.2⟩

/-- C6: claiming is idempotent for the same support user in both variants —
the first claim succeeds and records the requester, a repeat claim by the
same user yields the already-claimed-by-you notice with the recorded
claimer unchanged, and a non-forced claim by a different user fails with
the already-claimed-by-other reply leaving the claimer unchanged. -/
theorem c6_claim_idempotent :
    (∀ userId force,
        Db.handleClaimTicket none userId force = (some userId, .claimed)) ∧
    (∀ userId,
        Db.handleClaimTicket (some userId) userId false =
          (some userId, .alreadyByYou)) ∧
    (∀ userId claimer, ¬ claimer = userId →
        Db.handleClaimTicket (some claimer) userId false =
          (some claimer, .alreadyByOther claimer)) ∧
    (∀ p m, p.claimedBy = Fs.unclaimedValue → ¬ m = Fs.unclaimedValue →
        Fs.claimPanel p m =
          ({ claimedBy := m, status := Fs.inProgressValue }, .claimed)) ∧
    (∀ p m, p.claimedBy = m → Fs.claimPanel p m = (p, .alreadyByYou)) ∧
    (∀ p m, ¬ p.claimedBy = Fs.unclaimedValue → ¬ p.claimedBy = m →
        Fs.claimPanel p m = (p, .alreadyByOther p.claimedBy)) := by
  refine ⟨?_, ?_, ?_, ?_, ?_, ?_⟩
  · intro userId force
    cases force <;> rfl
  · intro userId
    simp [Db.handleClaimTicket]
  · intro userId claimer h
    simp [Db.handleClaimTicket, h]
  · intro p m hp hm
    have hm2 : ¬ Fs.unclaimedValue = m := fun h => hm h.symm
    simp [Fs.claimPanel, hp, hm2]
  · intro p m hp
    simp [Fs.claimPanel, hp]
  · intro p m hp hm
    simp [Fs.claimPanel, hp, hm]

/-- Closed instantiation of `c6_claim_idempotent`. -/
theorem c6_witness :
    Db.handleClaimTicket (some "7") "7" false = (some "7", .alreadyByYou) ∧
    Db.handleClaimTicket (some "7") "8" false =
      (some "7", .alreadyByOther "7") ∧
    Fs.claimPanel ⟨Fs.unclaimedValue, Fs.openValue⟩ "<@7>" =
      ({ claimedBy := "<@7>", status := Fs.inProgressValue }, .claimed) ∧
    Fs.claimPanel ⟨"<@7>", Fs.inProgressValue⟩ "<@8>" =
      (⟨"<@7>", Fs.inProgressValue⟩, .alreadyByOther "<@7>") :=
  ⟨c6_claim_idempotent.2.1 "7",
   c6_claim_idempotent.2.2.1 "8" "7" (by decide),
   c6_claim_idempotent.2.2.2.1 ⟨Fs.unclaimedValue, Fs.openValue⟩ "<@7>"
     (by rfl) (by decide),
   c6_claim_idempotent.2.2.2.2.2 ⟨"<@7>", Fs.inProgressValue⟩ "<@8>"
     (by decide) (by decide)⟩

/-- C7: locking sets the status label to Locked regardless of the claim
field, and an immediately following unlock restores the pre-lock label —
Open for an unclaimed ticket and In Progress for a claimed one — provided
the panel's status label was consistent with its claim field (which every
claim/unclaim transition maintains). -/
theorem c7_lock_unlock_roundtrip (p : Fs.ControlPanel)
    (h : p.status = if p.claimedBy = Fs.unclaimedValue then Fs.openValue
      else Fs.inProgressValue) :
    (Fs.lockPanel p).status = Fs.lockedValue ∧
    Fs.unlockPanel (Fs.lockPanel p) = p := by
  cases p with
  | mk claimedBy status =>
    refine ⟨rfl, ?_⟩
    simp only [Fs.unlockPanel, Fs.lockPanel] at h ⊢
    simp [h]

/-- Closed instantiation of `c7_lock_unlock_roundtrip`. -/
theorem c7_witness :
    (Fs.lockPanel ⟨Fs.unclaimedValue, Fs.openValue⟩).status = Fs.lockedValue ∧
    Fs.unlockPanel (Fs.lockPanel ⟨Fs.unclaimedValue, Fs.openValue⟩) =
      ⟨Fs.unclaimedValue, Fs.openValue⟩ :=
  c7_lock_unlock_roundtrip ⟨Fs.unclaimedValue, Fs.openValue⟩ (by rfl)

/-- The running-maximum fold of `getNextTicketNumber` computes the maximum
of the parsed ticket numbers. -/
theorem fold_max_eq_filterMap (l : List Channel) (a : Nat) :
    l.foldl (fun maxNumber c =>
      match Db.findTicketNum c.name with
      | some number => if maxNumber < number then number else maxNumber
      | none => maxNumber) a =
    max a ((l.filterMap (fun c => Db.findTicketNum c.name)).foldr max 0) := by
  induction l generalizing a with
  | nil => simp
  | cons c l ih =>
    cases hc : Db.findTicketNum c.name with
    | none =>
      simp only [List.foldl_cons, List.filterMap_cons, hc]
      exact ih a
    | some n =>
      simp only [List.foldl_cons, List.filterMap_cons, hc, List.foldr_cons]
      rw [ih]
      have hmax : (if a < n then n else a) = max a n := by
        rcases Nat.lt_or_ge a n with hlt | hge
        · rw [if_pos hlt]
          exact (max_eq_right (Nat.le_of_lt hlt)).symm
        · rw [if_neg (Nat.not_lt.mpr hge)]
          exact (max_eq_left hge).symm
      rw [hmax, max_assoc]

/-- C8: the numbered naming scheme is deterministic — the next ticket
number is one more than the largest number parsed by `/ticket-(\d+)/`
among the category's `ticket-`-prefixed text channels, it is 1 when the
category is missing, not a category, or no sibling name parses, and the
allocated channel is named `ticket-{n}` for that `n`. -/
theorem c8_ticket_numbering :
    (∀ channels categoryId,
        channels.find? (fun c => c.id = categoryId) = none →
        Db.getNextTicketNumber channels categoryId = 1) ∧
    (∀ channels categoryId category,
        channels.find? (fun c => c.id = categoryId) = some category →
        ¬ category.type = ChanType.guildCategory →
        Db.getNextTicketNumber channels categoryId = 1) ∧
    (∀ channels categoryId category,
        channels.find? (fun c => c.id = categoryId) = some category →
        category.type = ChanType.guildCategory →
        Db.getNextTicketNumber channels categoryId =
          ((channels.filter (fun c =>
              c.parentId = some categoryId && strStartsWith c.name "ticket-" &&
                c.type = ChanType.guildText)).filterMap
            (fun c => Db.findTicketNum c.name)).foldr max 0 + 1) ∧
    (∀ channels categoryId category,
        channels.find? (fun c => c.id = categoryId) = some category →
        category.type = ChanType.guildCategory →
        ((channels.filter (fun c =>
            c.parentId = some categoryId && strStartsWith c.name "ticket-" &&
              c.type = ChanType.guildText)).filterMap
          (fun c => Db.findTicketNum c.name)) = [] →
        Db.getNextTicketNumber channels categoryId = 1) ∧
    (∀ cfg topicValue channels userId categoryId topic,
        cfg.categoryId = some categoryId →
        cfg.supportRoleId.isSome = true →
        cfg.ticketTopics.find? (fun t => t.value = topicValue) = some topic →
        Db.dupTicketScan channels userId = none →
        ∃ newChannel,
          Db.handleTicketCreation cfg topicValue channels userId =
            (channels ++ [newChannel], none) ∧
          newChannel.name =
            "ticket-" ++ toString (Db.getNextTicketNumber channels categoryId)) := by
  have hmain : ∀ channels categoryId category,
      channels.find? (fun c => c.id = categoryId) = some category →
      category.type = ChanType.guildCategory →
      Db.getNextTicketNumber channels categoryId =
        ((channels.filter (fun c =>
            c.parentId = some categoryId && strStartsWith c.name "ticket-" &&
              c.type = ChanType.guildText)).filterMap
          (fun c => Db.findTicketNum c.name)).foldr max 0 + 1 := by
    intro channels categoryId category hfind htype
    simp only [Db.getNextTicketNumber, hfind, htype, not_true, if_false]
    rw [fold_max_eq_filterMap]
    simp
  refine ⟨?_, ?_, hmain, ?_, ?_⟩
  · intro channels categoryId hfind
    simp only [Db.getNextTicketNumber, hfind]
  · intro channels categoryId category hfind htype
    simp only [Db.getNextTicketNumber, hfind]
    rw [if_pos htype]
  · intro channels categoryId category hfind htype hempty
    rw [hmain channels categoryId category hfind htype, hempty]
    rfl
  · intro cfg topicValue channels userId categoryId topic hcat hrole hfind hdup
    obtain ⟨r, hr⟩ := Option.isSome_iff_exists.mp hrole
    refine ⟨⟨"ticket-" ++ toString (Db.getNextTicketNumber channels categoryId),
      "ticket-" ++ toString (Db.getNextTicketNumber channels categoryId),
      some categoryId, ChanType.guildText,
      some ("Ticket ID: " ++
        ("ticket-" ++ toString (Db.getNextTicketNumber channels categoryId)) ++
        " | UserID: " ++ userId ++ " | Topic: " ++ topic.label)⟩, ?_, rfl⟩
    unfold Db.handleTicketCreation
    rw [hcat, hr, hfind, hdup]

/-- Channels for the numbering witness: a category `cat1` with text
channels `ticket-4` and `ticket-9` plus an unrelated channel. -/
def witnessChannels : List Channel :=
  [⟨"cat1", "Tickets", none, ChanType.guildCategory, none⟩,
   ⟨"11", "ticket-4", some "cat1", ChanType.guildText, none⟩,
   ⟨"12", "ticket-9", some "cat1", ChanType.guildText, none⟩,
   ⟨"13", "general", some "cat1", ChanType.guildText, none⟩]

/-- Closed instantiation of `c8_ticket_numbering`. -/
theorem c8_witness :
    Db.getNextTicketNumber witnessChannels "cat1" =
      ((witnessChannels.filter (fun c =>
          c.parentId = some "cat1" && strStartsWith c.name "ticket-" &&
            c.type = ChanType.guildText)).filterMap
        (fun c => Db.findTicketNum c.name)).foldr max 0 + 1 ∧
    Db.getNextTicketNumber [] "cat1" = 1 ∧
    Db.getNextTicketNumber witnessChannels "cat1" = 10 :=
  ⟨c8_ticket_numbering.2.2.1 witnessChannels "cat1"
     ⟨"cat1", "Tickets", none, ChanType.guildCategory, none⟩ (by rfl) (by rfl),
   c8_ticket_numbering.1 [] "cat1" (by rfl),
   by rfl⟩

/-- C9: in the database variant a channel counts as a ticket exactly when
its name starts with `ticket-` — rename, close, lock, unlock and user
add/remove fail with the not-a-ticket error precisely when the prefix is
absent, the duplicate-open-ticket scan skips every channel without the
prefix, a rename whose sanitized result has valid length succeeds with
that sanitized name, and once every channel of the creator lacks the
prefix a new creation for the same creator passes all checks. -/
theorem c9_prefix_recognition :
    (∀ channelName channelTopic newName targetId logsConfigured
        logsChannelExists logsSendFails silent,
        strStartsWith channelName "ticket-" = false →
        Db.handleRenameTicket channelName newName =
          .error .NotATicketChannel ∧
        Db.handleCloseTicket channelName channelTopic logsConfigured
          logsChannelExists logsSendFails silent =
          .error .NotATicketChannel ∧
        Db.handleLockTicket channelName channelTopic true =
          .error .NotATicketChannel ∧
        Db.handleLockTicket channelName channelTopic false =
          .error .NotATicketChannel ∧
        Db.handleUserManagement channelName targetId true =
          .error .NotATicketChannel ∧
        Db.handleUserManagement channelName targetId false =
          .error .NotATicketChannel) ∧
    (∀ channelName channelTopic newName targetId logsConfigured
        logsChannelExists logsSendFails silent,
        strStartsWith channelName "ticket-" = true →
        ¬ Db.handleRenameTicket channelName newName =
          .error .NotATicketChannel ∧
        ¬ Db.handleCloseTicket channelName channelTopic logsConfigured
          logsChannelExists logsSendFails silent =
          .error .NotATicketChannel ∧
        ¬ Db.handleLockTicket channelName channelTopic true =
          .error .NotATicketChannel ∧
        ¬ Db.handleLockTicket channelName channelTopic false =
          .error .NotATicketChannel ∧
        ¬ Db.handleUserManagement channelName targetId true =
          .error .NotATicketChannel ∧
        ¬ Db.handleUserManagement channelName targetId false =
          .error .NotATicketChannel) ∧
    (∀ channels userId,
        (∀ c ∈ channels, strStartsWith c.name "ticket-" = false) →
        Db.dupTicketScan channels userId = none) ∧
    (∀ channelName newName,
        strStartsWith channelName "ticket-" = true →
        2 ≤ (Db.renameSanitize newName).length →
        (Db.renameSanitize newName).length ≤ 100 →
        Db.handleRenameTicket channelName newName =
          .ok (Db.renameSanitize newName)) ∧
    (∀ cfg topicValue channels userId,
        cfg.categoryId.isSome = true → cfg.supportRoleId.isSome = true →
        (cfg.ticketTopics.find? (fun t => t.value = topicValue)).isSome = true →
        (∀ c ∈ channels, strStartsWith c.name "ticket-" = false) →
        (Db.handleTicketCreation cfg topicValue channels userId).2 = none) := by
  refine ⟨?_, ?_, ?_, ?_, ?_⟩
  · intro channelName channelTopic newName targetId logsConfigured
      logsChannelExists logsSendFails silent h
    have hn : ¬ strStartsWith channelName "ticket-" = true := by simp [h]
    refine ⟨?_, ?_, ?_, ?_, ?_, ?_⟩ <;>
      simp [Db.handleRenameTicket, Db.handleCloseTicket, Db.handleLockTicket,
        Db.handleUserManagement, hn]
  · intro channelName channelTopic newName targetId logsConfigured
      logsChannelExists logsSendFails silent h
    refine ⟨?_, ?_, ?_, ?_, ?_, ?_⟩
    · simp only [Db.handleRenameTicket, h, not_true, if_false]
      split <;> simp
    · simp [Db.handleCloseTicket, h]
    · simp only [Db.handleLockTicket, h]
      cases Db.extractUserId channelTopic <;> simp
    · simp only [Db.handleLockTicket, h]
      cases Db.extractUserId channelTopic <;> simp
    · simp [Db.handleUserManagement, h]
    · simp [Db.handleUserManagement, h]
  · intro channels userId h
    apply List.find?_eq_none.mpr
    intro c hc
    simp [h c hc]
  · intro channelName newName hpre hlo hhi
    have hn : ¬ (Db.renameSanitize newName).length < 2 := by omega
    have hn2 : ¬ 100 < (Db.renameSanitize newName).length := by omega
    simp [Db.handleRenameTicket, hpre, hn, hn2]
  · intro cfg topicValue channels userId hcat hrole hfind hall
    obtain ⟨c, hc⟩ := Option.isSome_iff_exists.mp hcat
    obtain ⟨r, hr⟩ := Option.isSome_iff_exists.mp hrole
    obtain ⟨t, ht⟩ := Option.isSome_iff_exists.mp hfind
    have hdup : Db.dupTicketScan channels userId = none := by
      apply List.find?_eq_none.mpr
      intro ch hch
      simp [hall ch hch]
    unfold Db.handleTicketCreation
    rw [hc, hr, ht, hdup]

/-- Closed instantiation of `c9_prefix_recognition`: `ticket-7` renamed to
`Urgent Issue` takes the non-prefixed name `urgent-issue`, after which the
ticket commands refuse the channel and the duplicate scan ignores it even
though its topic still names the creator. -/
theorem c9_witness :
    Db.handleRenameTicket "ticket-7" "Urgent Issue" = .ok "urgent-issue" ∧
    Db.handleRenameTicket "urgent-issue" "anything" =
      .error .NotATicketChannel ∧
    Db.handleLockTicket "urgent-issue"
      (some "Ticket ID: ticket-7 | UserID: 42 | Topic: General") true =
      .error .NotATicketChannel ∧
    Db.dupTicketScan
      [⟨"11", "urgent-issue", some "cat1", ChanType.guildText,
        some "Ticket ID: ticket-7 | UserID: 42 | Topic: General"⟩] "42" =
      none :=
  ⟨c9_prefix_recognition.2.2.2.1 "ticket-7" "Urgent Issue" (by rfl) (by decide)
     (by decide),
   (c9_prefix_recognition.1 "urgent-issue" none "anything" "42" false false
     false false (by rfl)).1,
   (c9_prefix_recognition.1 "urgent-issue"
     (some "Ticket ID: ticket-7 | UserID: 42 | Topic: General") "anything" "42"
     false false false false (by rfl)).2.2.1,
   c9_prefix_recognition.2.2.1
     [⟨"11", "urgent-issue", some "cat1", ChanType.guildText,
       some "Ticket ID: ticket-7 | UserID: 42 | Topic: General"⟩] "42"
     (by intro c hc; simp at hc; subst hc; rfl)⟩

/-- C10: in the select-menu variant the cooldown entry is written only by a
fully successful modal submit — any topic failure or channel-creation
failure leaves the cooldown map untouched — the written expiry is exactly
`now + 3 minutes` in milliseconds, and both the write and the lookup are
keyed by the user id alone, with no guild component, so an entry blocks
that user's next creation in every guild the process serves. -/
theorem c10_cooldown_discipline :
    (∀ cfg st now userId userTag username topicValue subject createFails e,
        (Fs.handleModalSubmit cfg st now userId userTag username topicValue
          subject createFails).2 = some e →
        (Fs.handleModalSubmit cfg st now userId userTag username topicValue
          subject createFails).1.cooldowns = st.cooldowns) ∧
    (∀ cfg st now userId userTag username topicValue subject topic,
        cfg.ticketTopics.find? (fun t => t.value = topicValue) = some topic →
        (Fs.handleModalSubmit cfg st now userId userTag username topicValue
          subject false).1.cooldowns =
          Fs.setCooldown st.cooldowns userId (now + 180000) ∧
        (Fs.handleModalSubmit cfg st now userId userTag username topicValue
          subject false).2 = none) ∧
    Fs.TICKET_COOLDOWN_MINUTES * 60 * 1000 = 180000 ∧
    (∀ cooldowns userId cooldownData cfg cfg2 channels channels2 now now2
        topicValue topicValue2,
        Fs.lookupCooldown cooldowns userId = some cooldownData →
        Fs.handleSelectMenu cfg ⟨channels, cooldowns⟩ now userId topicValue =
          some (.CooldownActive (Fs.ceilSeconds (cooldownData - now))) ∧
        Fs.handleSelectMenu cfg2 ⟨channels2, cooldowns⟩ now2 userId
          topicValue2 =
          some (.CooldownActive (Fs.ceilSeconds (cooldownData - now2)))) := by
  refine ⟨?_, ?_, by rfl, ?_⟩
  · intro cfg st now userId userTag username topicValue subject createFails e h
    rcases fs_modal_state_or_none cfg st now userId userTag username topicValue
      subject createFails with hc | hn
    · rw [hc]
    · rw [h] at hn
      cases hn
  · intro cfg st now userId userTag username topicValue subject topic hfind
    unfold Fs.handleModalSubmit
    rw [hfind]
    exact ⟨rfl, rfl⟩
  · intro cooldowns userId cooldownData cfg cfg2 channels channels2 now now2
      topicValue topicValue2 h
    constructor <;>
      · unfold Fs.handleSelectMenu
        rw [h]

/-- Closed instantiation of `c10_cooldown_discipline`. -/
theorem c10_witness :
    (Fs.handleModalSubmit fileCfgEx ⟨[], []⟩ 0 "u1" "tag" "name" "missing"
      "subj" false).1.cooldowns = [] ∧
    (Fs.handleModalSubmit fileCfgEx ⟨[], []⟩ 1000 "u1" "tag" "name" "general"
      "subj" false).1.cooldowns = Fs.setCooldown [] "u1" (1000 + 180000) ∧
    Fs.handleSelectMenu fileCfgEx ⟨[], [("u1", 9000)]⟩ 2000 "u1" "general" =
      some (.CooldownActive (Fs.ceilSeconds (9000 - 2000))) :=
  ⟨c10_cooldown_discipline.1 fileCfgEx ⟨[], []⟩ 0 "u1" "tag" "name" "missing"
     "subj" false .UnknownTopic (by rfl),
   (c10_cooldown_discipline.2.1 fileCfgEx ⟨[], []⟩ 1000 "u1" "tag" "name"
     "general" "subj" ⟨"General", "general", "desc", none⟩ (by rfl)).1,
   (c10_cooldown_discipline.2.2.2 [("u1", 9000)] "u1" 9000 fileCfgEx fileCfgEx
     [] [] 2000 2000 "general" "general" (by rfl)).1⟩
